import Mathlib

/-!
Shallow embedding of the request-orchestration logic of the
Creators-CoPilot frontend (src/my-youtube-agent/src/App.jsx): input
classification, file aggregation, and the script and audio generation
lifecycles, together with proofs of the specified properties.
-/

namespace CoPilot

/-- Characters matched by the JavaScript regular-expression class \s
(whitespace), as used in the split call of handleSubmitFromText. -/
def isWs (c : Char) : Bool :=
  c = ' ' || c = '\t' || c = '\n' || c = '\r' || c = '\x0b' || c = '\x0c' ||
  c = ' ' || c = ' ' || c = ' ' || c = ' ' || c = ' ' ||
  c = ' ' || c = ' ' || c = ' ' || c = ' ' || c = ' ' ||
  c = ' ' || c = ' ' || c = ' ' || c = ' ' || c = ' ' ||
  c = ' ' || c = ' ' || c = '　' || c = '﻿'

/-- Accumulator worker for the JavaScript call str.split on the regular
expression of one or more whitespace characters: a separator is a maximal
run of whitespace, and a separator touching the start or the end of the
string contributes an empty boundary piece, exactly as in JavaScript. The
flag inSep records whether the previous character belonged to a
separator run, acc holds the current piece in reverse. -/
def splitWsAux (acc : List Char) (inSep : Bool) : List Char → List (List Char)
  | [] => [acc.reverse]
  | c :: rest =>
    if isWs c then
      if inSep then splitWsAux acc true rest
      else acc.reverse :: splitWsAux [] true rest
    else splitWsAux (c :: acc) false rest

/-- JavaScript split of a character list on runs of whitespace. -/
def jsSplitWs (l : List Char) : List (List Char) := splitWsAux [] false l

/-- Number of maximal whitespace runs, with a flag telling whether a run
is already open at the start. -/
def wsRunsAux (inSep : Bool) : List Char → Nat
  | [] => 0
  | c :: rest =>
    if isWs c then (if inSep then 0 else 1) + wsRunsAux true rest
    else wsRunsAux false rest

/-- Number of whitespace-delimited tokens (maximal non-whitespace runs),
with a flag telling whether a token is already open at the start. -/
def countTokensAux (inTok : Bool) : List Char → Nat
  | [] => 0
  | c :: rest =>
    if isWs c then countTokensAux false rest
    else (if inTok then 0 else 1) + countTokensAux true rest

/-- Number of whitespace-delimited tokens (maximal non-whitespace runs) in
a character list: the token count in the sense of the specification. -/
def countTokens (l : List Char) : Nat := countTokensAux false l

/-- One when the list starts with a whitespace character, zero otherwise. -/
def leadPen : List Char → Nat
  | [] => 0
  | c :: _ => if isWs c then 1 else 0

/-- One when the list starts with a non-whitespace character, zero
otherwise. -/
def tokLead : List Char → Nat
  | [] => 0
  | c :: _ => if isWs c then 0 else 1

/-- One when the list ends with a whitespace character, zero otherwise. -/
def trailPen : List Char → Nat
  | [] => 0
  | [c] => if isWs c then 1 else 0
  | _ :: c :: rest => trailPen (c :: rest)

/-- Source-type tag attached to a generation request. -/
inductive SourceType
  | topic
  | github
  | script
  | file
deriving DecidableEq, Repr

/-- Marker substring whose presence classifies input as a GitHub source. -/
def ghMarker : List Char := "github.com/".data

/-- Test whether the first list is a leading segment of the second. -/
def leadsList : List Char → List Char → Bool
  | [], _ => true
  | _ :: _, [] => false
  | a :: as, b :: bs => a = b && leadsList as bs

/-- JavaScript String.prototype.includes on character lists: the pattern
occurs as a contiguous substring at some position. -/
def containsSub (pat : List Char) : List Char → Bool
  | [] => leadsList pat []
  | b :: bs => leadsList pat (b :: bs) || containsSub pat bs

/-- Input classifier of handleSubmitFromText: github when the input
contains the marker substring, script when the split on whitespace runs
has more than 50 pieces, topic otherwise. -/
def classify (input : String) : SourceType :=
  if containsSub ghMarker input.data then .github
  else if 50 < (jsSplitWs input.data).length then .script
  else .topic

/-- Parsed successful response body of the generate-script endpoint. -/
structure ScriptResult where
  script : String
  title : String
  description : String
  tags : List String
deriving DecidableEq, Repr

/-- UI state held by the App component. -/
structure AppState where
  userInput : String
  scriptData : Option ScriptResult
  audioUrl : Option String
  isLoadingScript : Bool
  isLoadingAudio : Bool
  error : Option String
deriving DecidableEq, Repr

/-- Fixed backend base address. -/
def API_BASE_URL : String := "http://127.0.0.1:8000"

/-- Request body sent to the backend: the generate-script endpoint
receives a source type and the content, the generate-audio endpoint
receives only the script text. -/
inductive Request
  | generateScript (source_type : SourceType) (content : String)
  | generateAudio (script : String)
deriving DecidableEq, Repr

/-- Outcome of the generate-script fetch: a parsed success body, a
non-success HTTP response whose JSON body optionally carries a detail
field, or a thrown transport error carrying its own message. -/
inductive ScriptFetchOutcome
  | success (data : ScriptResult)
  | httpError (detail : Option String)
  | transportError (message : String)
deriving DecidableEq, Repr

/-- Outcome of the generate-audio fetch, with the success body reduced to
its audio_url field. -/
inductive AudioFetchOutcome
  | success (audio_url : String)
  | httpError (detail : Option String)
  | transportError (message : String)
deriving DecidableEq, Repr

/-- JavaScript or-else on an optional detail string: an absent or empty
(falsy) detail falls back to the generic message. -/
def jsOrElse (d : Option String) (fallback : String) : String :=
  match d with
  | some s => if s = "" then fallback else s
  | none => fallback

/-- Entry phase of handleGenerateScript, executed before the fetch is
issued: clears error, script data and audio URL, sets the script loading
flag. -/
def scriptRequestEntry (st : AppState) : AppState :=
  { st with error := none, scriptData := none, audioUrl := none,
            isLoadingScript := true }

/-- Completion phase of handleGenerateScript: stores the parsed body on
success, otherwise stores an error message, and in every case (the
finally block) clears the script loading flag. -/
def scriptRequestFinish (st : AppState) (o : ScriptFetchOutcome) : AppState :=
  match o with
  | .success data => { st with scriptData := some data, isLoadingScript := false }
  | .httpError d =>
      { st with error := some (jsOrElse d "Failed to generate script."),
                isLoadingScript := false }
  | .transportError m => { st with error := some m, isLoadingScript := false }

/-- Full script-generation lifecycle: entry effects, one request with the
given source type and content, then the completion transition determined
by the fetch outcome. -/
def handleGenerateScript (st : AppState) (sourceType : SourceType)
    (content : String) (o : ScriptFetchOutcome) : AppState × Request :=
  (scriptRequestFinish (scriptRequestEntry st) o,
   .generateScript sourceType content)

/-- Text submission handler: empty input is a validation error with no
request; otherwise the input is classified and the script lifecycle runs
on it. The second component is the issued request, if any. -/
def handleSubmitFromText (st : AppState) (o : ScriptFetchOutcome) :
    AppState × Option Request :=
  if st.userInput = "" then
    ({ st with error := some "Please provide input in the text area." }, none)
  else
    let r := handleGenerateScript st (classify st.userInput) st.userInput o
    (r.1, some r.2)

/-- Selected file together with the result of reading it as text: the
FileReader either resolves with the text or rejects with an error. -/
structure FileInput where
  name : String
  readResult : Except String String
deriving Repr

/-- Per-file promise body: a successful read resolves to the header line
followed by the text of the file; a failed read rejects. -/
def fileSection (f : FileInput) : Except String String :=
  match f.readResult with
  | .ok text => .ok ("--- CONTENT FROM " ++ f.name ++ " ---\n" ++ text)
  | .error e => .error e

/-- Promise.all over the per-file reads: all sections in order, or the
first error; any single failure makes the whole aggregation fail. -/
def awaitAll : List FileInput → Except String (List String)
  | [] => .ok []
  | f :: rest =>
    match fileSection f with
    | .error e => .error e
    | .ok s =>
      match awaitAll rest with
      | .error e => .error e
      | .ok ss => .ok (s :: ss)

/-- File-upload handler: zero files is a validation error; a failed read
makes the await throw with nothing after it executed, so the state is
returned unchanged and no request is issued; otherwise the sections are
joined with a blank line and the script lifecycle runs with source type
file. -/
def handleFileChange (st : AppState) (files : List FileInput)
    (o : ScriptFetchOutcome) : AppState × Option Request :=
  if files.isEmpty then
    ({ st with error := some "Please upload at least one file." }, none)
  else
    match awaitAll files with
    | .error _ => (st, none)
    | .ok sections =>
      let r := handleGenerateScript st .file (String.intercalate "\n\n" sections) o
      (r.1, some r.2)

/-- Entry phase of handleGenerateAudio after the guard passed: clears
error and audio URL, sets the audio loading flag. -/
def audioRequestEntry (st : AppState) : AppState :=
  { st with error := none, audioUrl := none, isLoadingAudio := true }

/-- Completion phase of handleGenerateAudio: on success stores the
returned relative path concatenated to the base address, otherwise an
error message, and in every case clears the audio loading flag. -/
def audioRequestFinish (st : AppState) (o : AudioFetchOutcome) : AppState :=
  match o with
  | .success u =>
      { st with audioUrl := some (API_BASE_URL ++ u), isLoadingAudio := false }
  | .httpError d =>
      { st with error := some (jsOrElse d "Failed to generate audio."),
                isLoadingAudio := false }
  | .transportError m => { st with error := some m, isLoadingAudio := false }

/-- Audio-generation handler: a missing script result or an empty (falsy)
script field is a validation error with no request; otherwise the audio
lifecycle runs and the request carries only the script text. -/
def handleGenerateAudio (st : AppState) (o : AudioFetchOutcome) :
    AppState × Option Request :=
  match st.scriptData with
  | none =>
    ({ st with error := some "No script available to generate audio from." }, none)
  | some data =>
    if data.script = "" then
      ({ st with error := some "No script available to generate audio from." }, none)
    else
      (audioRequestFinish (audioRequestEntry st) o,
       some (.generateAudio data.script))

/-- File list in which every read succeeded, built from name and text
pairs. -/
def okFiles (fs : List (String × String)) : List FileInput :=
  fs.map fun p => { name := p.1, readResult := .ok p.2 }

/-- Payload described by the specification: per-file sections, each a
header line followed by the text of the file, joined with one blank line
between consecutive sections, in selection order. -/
def specFilePayload (fs : List (String × String)) : String :=
  String.intercalate "\n\n"
    (fs.map fun p => "--- CONTENT FROM " ++ p.1 ++ " ---\n" ++ p.2)

/-- Idle sample state. -/
def stBase : AppState :=
  { userInput := "", scriptData := none, audioUrl := none,
    isLoadingScript := false, isLoadingAudio := false, error := none }

/-- Sample successful script response. -/
def sampleScript : ScriptResult :=
  { script := "myscript", title := "t", description := "d", tags := ["x"] }

/-- Sample state holding a script result and an audio URL from an
earlier generation. -/
def stWithScript : AppState :=
  { stBase with userInput := "hi", scriptData := some sampleScript,
                audioUrl := some "http://127.0.0.1:8000/old.wav" }

/-- Input of fifty whitespace-delimited tokens carrying one leading
whitespace character. -/
def longTokens : String := " " ++ String.intercalate " " (List.replicate 50 "a")

/-- Single selected file whose read fails. -/
def failFiles : List FileInput :=
  [{ name := "a.txt", readResult := .error "read failed" }]

/-- Name and text pairs of the two-file example of the specification. -/
def okPairs : List (String × String) := [("a.txt", "hello"), ("b.txt", "world")]

/-- Sample state with no script result but an audio URL left over from an
earlier generation. -/
def stOldAudio : AppState :=
  { stBase with audioUrl := some "http://127.0.0.1:8000/old.wav" }

theorem splitWsAux_length (l : List Char) :
    ∀ (acc : List Char) (inSep : Bool),
      (splitWsAux acc inSep l).length = 1 + wsRunsAux inSep l := by
  induction l with
  | nil => intro acc inSep; simp [splitWsAux, wsRunsAux]
  | cons c rest ih =>
    intro acc inSep
    cases hc : isWs c <;> cases hs : inSep <;>
      simp [splitWsAux, wsRunsAux, hc, ih] <;> omega

theorem wsRunsAux_true (l : List Char) :
    wsRunsAux true l + leadPen l = wsRunsAux false l := by
  cases l with
  | nil => simp [wsRunsAux, leadPen]
  | cons c rest => cases hc : isWs c <;> simp [wsRunsAux, leadPen, hc] <;> omega

theorem countTokensAux_true (l : List Char) :
    countTokensAux true l + tokLead l = countTokensAux false l := by
  cases l with
  | nil => simp [countTokensAux, tokLead]
  | cons c rest =>
    cases hc : isWs c <;> simp [countTokensAux, tokLead, hc] <;> omega

theorem tokLead_add_leadPen (l : List Char) (h : l ≠ []) :
    tokLead l + leadPen l = 1 := by
  cases l with
  | nil => exact absurd rfl h
  | cons c rest => cases hc : isWs c <;> simp [tokLead, leadPen, hc]

theorem trailPen_cons (c : Char) (r : List Char) (h : r ≠ []) :
    trailPen (c :: r) = trailPen r := by
  cases r with
  | nil => exact absurd rfl h
  | cons d r2 => rfl

theorem splitCount :
    ∀ l : List Char, l ≠ [] →
      1 + wsRunsAux false l = countTokens l + leadPen l + trailPen l := by
  intro l
  induction l with
  | nil => intro h; exact absurd rfl h
  | cons c rest ih =>
    intro _
    cases rest with
    | nil =>
      cases hc : isWs c <;>
        simp [wsRunsAux, countTokens, countTokensAux, leadPen, trailPen, hc]
    | cons d r2 =>
      have hne : d :: r2 ≠ [] := by simp
      have IH := ih hne
      have h1 := wsRunsAux_true (d :: r2)
      have h2 := countTokensAux_true (d :: r2)
      have h3 := tokLead_add_leadPen (d :: r2) hne
      have h4 : trailPen (c :: d :: r2) = trailPen (d :: r2) := rfl
      simp only [countTokens] at IH ⊢
      cases hc : isWs c
      · have g1 : wsRunsAux false (c :: d :: r2) = wsRunsAux false (d :: r2) := by
          simp [wsRunsAux, hc]
        have g2 : countTokensAux false (c :: d :: r2) =
            1 + countTokensAux true (d :: r2) := by
          simp [countTokensAux, hc]
        have g3 : leadPen (c :: d :: r2) = 0 := by simp [leadPen, hc]
        rw [g1, g2, g3, h4]
        omega
      · have g1 : wsRunsAux false (c :: d :: r2) =
            1 + wsRunsAux true (d :: r2) := by
          simp [wsRunsAux, hc]
        have g2 : countTokensAux false (c :: d :: r2) =
            countTokensAux false (d :: r2) := by
          simp [countTokensAux, hc]
        have g3 : leadPen (c :: d :: r2) = 1 := by simp [leadPen, hc]
        rw [g1, g2, g3, h4]
        omega

theorem jsSplitWs_length (l : List Char) (h : l ≠ []) :
    (jsSplitWs l).length = countTokens l + leadPen l + trailPen l := by
  unfold jsSplitWs
  rw [splitWsAux_length l [] false]
  exact splitCount l h

set_option maxRecDepth 40000 in
/-- C1, counterexample: on an input of exactly fifty tokens preceded by a
single whitespace character and containing no GitHub marker, the
classifier yields script although the whitespace-delimited token count
does not exceed fifty, so the classification is not determined by the
token count alone as the claim states. -/
theorem classify_tokenCount_cex :
    longTokens.data ≠ [] ∧ containsSub ghMarker longTokens.data = false ∧
    countTokens longTokens.data = 50 ∧
    classify longTokens ≠
      (if 50 < countTokens longTokens.data then SourceType.script
       else SourceType.topic) := by decide

/-- C1, amended: for every non-empty input without the GitHub marker, the
classifier yields script exactly when the whitespace-delimited token
count, plus one for leading whitespace and one for trailing whitespace
(the empty boundary pieces the JavaScript split produces), exceeds fifty,
and yields topic otherwise. -/
theorem classify_tokenCount_amended (s : String) (h1 : s.data ≠ [])
    (h2 : containsSub ghMarker s.data = false) :
    classify s =
      (if 50 < countTokens s.data + leadPen s.data + trailPen s.data
       then SourceType.script else SourceType.topic) := by
  unfold classify
  rw [h2, jsSplitWs_length s.data h1]
  simp

/-- C1, witness: the two-token input evaluates to topic under the amended
rule. -/
theorem classify_tokenCount_witness :
    (("hello world" : String).data ≠ [] ∧
     containsSub ghMarker ("hello world" : String).data = false) ∧
    classify "hello world" =
      (if 50 < countTokens ("hello world" : String).data +
          leadPen ("hello world" : String).data +
          trailPen ("hello world" : String).data
       then SourceType.script else SourceType.topic) :=
  ⟨⟨by decide, by decide⟩,
   classify_tokenCount_amended "hello world" (by decide) (by decide)⟩

/-- C2: every input containing the substring github.com/ is classified as
github, regardless of its token count. -/
theorem classify_github (s : String)
    (h : containsSub ghMarker s.data = true) :
    classify s = SourceType.github := by
  unfold classify
  rw [h]
  simp

/-- C2, witness: a concrete input containing the marker is classified as
github. -/
theorem classify_github_witness :
    containsSub ghMarker ("see github.com/google x" : String).data = true ∧
    classify "see github.com/google x" = SourceType.github :=
  ⟨by decide, classify_github _ (by decide)⟩

/-- C3: on entry of the script-generation lifecycle, before the fetch
outcome is consumed, the prior error, script result and audio result are
cleared and the script loading flag is set, and the full handler is the
completion transition applied to that entry state together with the
issued request. -/
theorem script_entry_clears (st : AppState) (sourceType : SourceType)
    (content : String) (o : ScriptFetchOutcome) :
    (scriptRequestEntry st).error = none ∧
    (scriptRequestEntry st).scriptData = none ∧
    (scriptRequestEntry st).audioUrl = none ∧
    (scriptRequestEntry st).isLoadingScript = true ∧
    handleGenerateScript st sourceType content o =
      (scriptRequestFinish (scriptRequestEntry st) o,
       Request.generateScript sourceType content) :=
  ⟨rfl, rfl, rfl, rfl, rfl⟩

theorem awaitAll_okFiles (fs : List (String × String)) :
    awaitAll (okFiles fs) =
      .ok (fs.map fun p => "--- CONTENT FROM " ++ p.1 ++ " ---\n" ++ p.2) := by
  induction fs with
  | nil => rfl
  | cons p rest ih =>
    simp only [okFiles] at ih ⊢
    simp [awaitAll, fileSection, ih]

theorem awaitAll_error (files : List FileInput) (f : FileInput) (e : String)
    (hf : f ∈ files) (he : f.readResult = .error e) :
    ∃ m, awaitAll files = .error m := by
  induction files with
  | nil => cases hf
  | cons g rest ih =>
    cases hf with
    | head => exact ⟨e, by simp [awaitAll, fileSection, he]⟩
    | tail _ hmem =>
      obtain ⟨m, hm⟩ := ih hmem
      cases hg : fileSection g with
      | error e2 => exact ⟨e2, by simp [awaitAll, hg]⟩
      | ok s => exact ⟨m, by simp [awaitAll, hg, hm]⟩

/-- C4, counterexample: a transport failure surfaces the message of the
thrown error itself, not the generic fallback, and a response whose body
supplies an empty detail surfaces the fallback rather than the supplied
detail. -/
theorem error_message_cex :
    (handleGenerateScript stBase .topic "t"
        (.transportError "Failed to fetch")).1.error = some "Failed to fetch" ∧
    ("Failed to fetch" : String) ≠ "Failed to generate script." ∧
    (handleGenerateScript stBase .topic "t"
        (.httpError (some ""))).1.error = some "Failed to generate script." ∧
    ("" : String) ≠ "Failed to generate script." := by decide

/-- C4, amended: on a non-success HTTP response the surfaced error is the
server-supplied detail when the body supplies a non-empty one and the
generic fallback otherwise; on a transport failure the surfaced error is
the message of the thrown error itself; in every failure case the
corresponding result remains absent. -/
theorem error_message_amended (st : AppState) (srcT : SourceType)
    (content : String) (d : Option String) (t m : String) :
    ((d = some t → t ≠ "" →
        (handleGenerateScript st srcT content (.httpError d)).1.error = some t) ∧
     ((d = none ∨ d = some "") →
        (handleGenerateScript st srcT content (.httpError d)).1.error =
          some "Failed to generate script.") ∧
     (handleGenerateScript st srcT content (.httpError d)).1.scriptData = none ∧
     (handleGenerateScript st srcT content (.transportError m)).1.error = some m ∧
     (handleGenerateScript st srcT content (.transportError m)).1.scriptData
       = none) ∧
    (∀ r : ScriptResult, st.scriptData = some r → r.script ≠ "" →
     (d = some t → t ≠ "" →
        (handleGenerateAudio st (.httpError d)).1.error = some t) ∧
     ((d = none ∨ d = some "") →
        (handleGenerateAudio st (.httpError d)).1.error =
          some "Failed to generate audio.") ∧
     (handleGenerateAudio st (.httpError d)).1.audioUrl = none ∧
     (handleGenerateAudio st (.transportError m)).1.error = some m ∧
     (handleGenerateAudio st (.transportError m)).1.audioUrl = none) := by
  refine ⟨⟨?_, ?_, rfl, rfl, rfl⟩, ?_⟩
  · intro hd ht; subst hd
    simp [handleGenerateScript, scriptRequestFinish, scriptRequestEntry,
          jsOrElse, ht]
  · rintro (hd | hd) <;> subst hd <;>
      simp [handleGenerateScript, scriptRequestFinish, scriptRequestEntry,
            jsOrElse]
  intro r hr hs
  refine ⟨?_, ?_, ?_, ?_, ?_⟩
  · intro hd ht; subst hd
    simp [handleGenerateAudio, hr, hs, audioRequestFinish, audioRequestEntry,
          jsOrElse, ht]
  · rintro (hd | hd) <;> subst hd <;>
      simp [handleGenerateAudio, hr, hs, audioRequestFinish, audioRequestEntry,
            jsOrElse]
  · simp [handleGenerateAudio, hr, hs, audioRequestFinish, audioRequestEntry]
  · simp [handleGenerateAudio, hr, hs, audioRequestFinish, audioRequestEntry]
  · simp [handleGenerateAudio, hr, hs, audioRequestFinish, audioRequestEntry]

/-- C4, witness: from the idle state with no stored script, a supplied
detail is surfaced verbatim for the script endpoint; from the sample
script state, an absent detail falls back to the audio fallback
message. -/
theorem error_message_witness :
    (handleGenerateScript stBase .topic "t"
        (.httpError (some "bad topic"))).1.error = some "bad topic" ∧
    (stWithScript.scriptData = some sampleScript ∧ sampleScript.script ≠ "") ∧
    (handleGenerateAudio stWithScript
        (.httpError (none : Option String))).1.error =
      some "Failed to generate audio." :=
  ⟨(error_message_amended stBase .topic "t"
      (some "bad topic") "bad topic" "x").1.1 rfl (by decide),
   ⟨rfl, by decide⟩,
   ((error_message_amended stWithScript .topic "t"
      none "bad topic" "x").2 sampleScript rfl (by decide)).2.1 (Or.inl rfl)⟩

/-- C5, counterexample: when the only selected file fails to read, the
handler returns the state unchanged with no request, so no user-visible
error is surfaced, contrary to the claim. -/
theorem file_read_failure_cex :
    stBase.error = none ∧
    handleFileChange stBase failFiles (.transportError "x") = (stBase, none) ∧
    (handleFileChange stBase failFiles (.transportError "x")).1.error = none :=
  by decide

/-- C5, amended: if any single file read fails, the entire aggregation
aborts, no script-generation request is issued and the state is returned
unchanged; in particular the failure is not surfaced as a user-visible
error message. -/
theorem file_read_failure_amended (st : AppState) (files : List FileInput)
    (o : ScriptFetchOutcome) (f : FileInput) (e : String)
    (hf : f ∈ files) (he : f.readResult = .error e) :
    handleFileChange st files o = (st, none) := by
  obtain ⟨m, hm⟩ := awaitAll_error files f e hf he
  have hne : files.isEmpty = false := by
    cases files with
    | nil => cases hf
    | cons g rest => rfl
  simp [handleFileChange, hne, hm]

/-- C5, witness: a single failing file aborts the aggregation leaving the
state unchanged. -/
theorem file_read_failure_witness :
    ({ name := "a.txt", readResult := Except.error "read failed" } : FileInput)
      ∈ failFiles ∧
    handleFileChange stBase failFiles (.httpError none) = (stBase, none) :=
  ⟨by simp [failFiles],
   file_read_failure_amended stBase failFiles (.httpError none)
     { name := "a.txt", readResult := Except.error "read failed" } "read failed"
     (by simp [failFiles]) rfl⟩

/-- C6: for a non-empty selection whose reads all succeed, the handler
issues a script request with source type file whose content is the
specified payload: headered per-file sections in selection order joined
with one blank line, and the state follows the script lifecycle on that
payload. -/
theorem file_aggregation (st : AppState) (fs : List (String × String))
    (o : ScriptFetchOutcome) (h : fs ≠ []) :
    handleFileChange st (okFiles fs) o =
      ((handleGenerateScript st .file (specFilePayload fs) o).1,
       some (Request.generateScript SourceType.file (specFilePayload fs))) := by
  have hne : (okFiles fs).isEmpty = false := by
    cases fs with
    | nil => exact absurd rfl h
    | cons p rest => rfl
  simp [handleFileChange, hne, awaitAll_okFiles, specFilePayload,
        handleGenerateScript]

/-- C6, witness: the two-file example produces exactly the two headered
sections in selection order separated by one blank line. -/
theorem file_aggregation_witness :
    okPairs ≠ [] ∧
    handleFileChange stBase (okFiles okPairs) (.transportError "x") =
      ((handleGenerateScript stBase .file (specFilePayload okPairs)
          (.transportError "x")).1,
       some (Request.generateScript SourceType.file (specFilePayload okPairs))) ∧
    specFilePayload okPairs =
      "--- CONTENT FROM a.txt ---\nhello\n\n--- CONTENT FROM b.txt ---\nworld" :=
  ⟨by decide,
   file_aggregation stBase okPairs (.transportError "x") (by decide),
   by decide⟩

/-- C7: empty text submission, zero selected files and an audio request
with no script each set a user-visible error message and issue no
request. -/
theorem validation_no_request (st : AppState) (so : ScriptFetchOutcome)
    (ao : AudioFetchOutcome) (files : List FileInput) :
    (st.userInput = "" →
      handleSubmitFromText st so =
        ({ st with error := some "Please provide input in the text area." },
         none)) ∧
    (files = [] →
      handleFileChange st files so =
        ({ st with error := some "Please upload at least one file." }, none)) ∧
    (st.scriptData = none →
      handleGenerateAudio st ao =
        ({ st with error := some "No script available to generate audio from." },
         none)) := by
  refine ⟨?_, ?_, ?_⟩
  · intro h; simp [handleSubmitFromText, h]
  · intro h; subst h; rfl
  · intro h; simp [handleGenerateAudio, h]

/-- C7, witness: the three validation failures on a concrete idle state. -/
theorem validation_no_request_witness :
    (stBase.userInput = "" ∧ stBase.scriptData = none) ∧
    handleSubmitFromText stBase (.transportError "x") =
      ({ stBase with error := some "Please provide input in the text area." },
       none) ∧
    handleFileChange stBase [] (.transportError "x") =
      ({ stBase with error := some "Please upload at least one file." }, none) ∧
    handleGenerateAudio stBase (.transportError "x") =
      ({ stBase with error := some "No script available to generate audio from." },
       none) :=
  ⟨⟨rfl, rfl⟩,
   (validation_no_request stBase (.transportError "x") (.transportError "x")
      []).1 rfl,
   (validation_no_request stBase (.transportError "x") (.transportError "x")
      []).2.1 rfl,
   (validation_no_request stBase (.transportError "x") (.transportError "x")
      []).2.2 rfl⟩

/-- C8: with a non-empty script present, the audio request carries only
the script text, and on success the stored audio URL is the returned
relative path concatenated to the backend base address. -/
theorem audio_request_shape (st : AppState) (r : ScriptResult)
    (ao : AudioFetchOutcome) (u : String)
    (h1 : st.scriptData = some r) (h2 : r.script ≠ "") :
    (handleGenerateAudio st ao).2 = some (Request.generateAudio r.script) ∧
    (handleGenerateAudio st (.success u)).1.audioUrl =
      some (API_BASE_URL ++ u) := by
  constructor
  · simp [handleGenerateAudio, h1, h2]
  · simp [handleGenerateAudio, h1, h2, audioRequestFinish, audioRequestEntry]

/-- C8, witness: the sample script state sends exactly the script text
and resolves the returned path against the base address. -/
theorem audio_request_shape_witness :
    (stWithScript.scriptData = some sampleScript ∧ sampleScript.script ≠ "") ∧
    (handleGenerateAudio stWithScript (.success "/audio/out.wav")).2 =
      some (Request.generateAudio "myscript") ∧
    (handleGenerateAudio stWithScript (.success "/audio/out.wav")).1.audioUrl =
      some "http://127.0.0.1:8000/audio/out.wav" :=
  ⟨⟨rfl, by decide⟩,
   (audio_request_shape stWithScript sampleScript (.success "/audio/out.wav")
      "/audio/out.wav" rfl (by decide)).1,
   ((audio_request_shape stWithScript sampleScript (.success "/audio/out.wav")
      "/audio/out.wav" rfl (by decide)).2).trans rfl⟩

/-- C9: after any script-generation attempt the script loading flag is
false and the audio loading flag is untouched; after any audio-generation
attempt that issues a request the audio loading flag is false and the
script loading flag is untouched. -/
theorem loading_flags (st : AppState) (srcT : SourceType) (content : String)
    (so : ScriptFetchOutcome) (ao : AudioFetchOutcome) :
    (handleGenerateScript st srcT content so).1.isLoadingScript = false ∧
    (handleGenerateScript st srcT content so).1.isLoadingAudio =
      st.isLoadingAudio ∧
    (∀ r : ScriptResult, st.scriptData = some r → r.script ≠ "" →
      (handleGenerateAudio st ao).1.isLoadingAudio = false ∧
      (handleGenerateAudio st ao).1.isLoadingScript = st.isLoadingScript) := by
  refine ⟨?_, ?_, ?_⟩
  · cases so <;> rfl
  · cases so <;> rfl
  intro r h1 h2
  constructor
  · cases ao <;>
      simp [handleGenerateAudio, h1, h2, audioRequestFinish, audioRequestEntry]
  · cases ao <;>
      simp [handleGenerateAudio, h1, h2, audioRequestFinish, audioRequestEntry]

/-- C9, witness: a script attempt from the idle no-script state clears
its loading flag, and an audio attempt on the sample script state clears
its own. -/
theorem loading_flags_witness :
    (handleGenerateScript stBase .topic "t"
        (.success sampleScript)).1.isLoadingScript = false ∧
    (stWithScript.scriptData = some sampleScript ∧ sampleScript.script ≠ "") ∧
    (handleGenerateAudio stWithScript
        (.success "/a.wav")).1.isLoadingAudio = false :=
  ⟨(loading_flags stBase .topic "t" (.success sampleScript)
      (.success "/a.wav")).1,
   ⟨rfl, by decide⟩,
   ((loading_flags stWithScript .topic "t" (.success sampleScript)
      (.success "/a.wav")).2.2 sampleScript rfl (by decide)).1⟩

/-- C10: when no script result exists or its script field is empty, the
audio handler only sets the error message: audio URL, script result, both
loading flags and the user input are unchanged and no request is issued. -/
theorem audio_guard_frame (st : AppState) (ao : AudioFetchOutcome)
    (h : st.scriptData = none ∨ ∃ r, st.scriptData = some r ∧ r.script = "") :
    (handleGenerateAudio st ao).1.error =
      some "No script available to generate audio from." ∧
    (handleGenerateAudio st ao).1.audioUrl = st.audioUrl ∧
    (handleGenerateAudio st ao).1.scriptData = st.scriptData ∧
    (handleGenerateAudio st ao).1.isLoadingScript = st.isLoadingScript ∧
    (handleGenerateAudio st ao).1.isLoadingAudio = st.isLoadingAudio ∧
    (handleGenerateAudio st ao).1.userInput = st.userInput ∧
    (handleGenerateAudio st ao).2 = none := by
  rcases h with h | ⟨r, hr, hs⟩
  · simp [handleGenerateAudio, h]
  · simp [handleGenerateAudio, hr, hs]

/-- C10, witness: with no script present, the audio URL of an earlier
generation stays in place and no request is issued. -/
theorem audio_guard_frame_witness :
    stOldAudio.scriptData = none ∧
    (handleGenerateAudio stOldAudio (.success "/a.wav")).1.audioUrl =
      some "http://127.0.0.1:8000/old.wav" ∧
    (handleGenerateAudio stOldAudio (.success "/a.wav")).2 = none :=
  ⟨rfl,
   ((audio_guard_frame stOldAudio (.success "/a.wav") (Or.inl rfl)).2.1).trans
     rfl,
   (audio_guard_frame stOldAudio (.success "/a.wav") (Or.inl rfl)).2.2.2.2.2.2⟩

end CoPilot
